import Mathlib

/-!
Verification of the CHIP-8 emulator core (src/cpu.rs, src/ram.rs,
src/registers.rs, src/screen.rs, src/timer.rs, src/keyboard.rs) against its
natural-language specification.

Shallow embedding conventions:
* machine bytes and words are `Nat` with explicit `% 256` / `% 65536` where
  the Rust code wraps (`u8` / `u16`);
* fixed byte arrays (`[u8; 0x1000]`, `[u8; 16]`, `[u16; 16]`) are total
  functions `Nat → Nat` read only at in-range indices;
* fallible Rust operations returning `Result<_, MemoryError>` become
  `Except MemoryError _`;
* a Rust panic (`panic!`, `todo!`, `.expect(..)` on an `Err`) aborts the
  process; at the execution-engine level it is modelled as `Except.error`
  with a `Halt` value naming the kind of abort.
-/

namespace Chip8

/-- The error enum of src/io.rs (`MemoryError`). -/
inductive MemoryError where
  | OutOfBounds
  | InvalidRange
  | DoesNotExist
  | StackOverflow
  | StackUnderflow
deriving DecidableEq, Repr

/-- How `CPU::execute_instruction` can abort instead of returning a state.
`invalidInstruction` is the `panic!("Invalid instruction received! ..")` arms,
`expectFailure` is any `.expect(..)` firing on an `Err`, `todoDrawSprite` is
the `todo!()` body of `Screen::draw`, and `blockedOnKey` stands for
`Keyboard::wait_for_any_key_press` blocking forever because no key is
pressed (the sequential embedding of the only suspension point). -/
inductive Halt where
  | invalidInstruction
  | expectFailure
  | todoDrawSprite
  | blockedOnKey
deriving DecidableEq, Repr

/-- Point update of a byte store, i.e. `store[a] = d` on a Rust array. -/
def updateFn (f : Nat → Nat) (a d : Nat) : Nat → Nat :=
  fun k => if k = a then d else f k

/-- `u8::wrapping_add`. -/
def wadd8 (a b : Nat) : Nat := (a + b) % 256

/-- `u8::wrapping_sub` (on byte-valued arguments). -/
def wsub8 (a b : Nat) : Nat := (a % 256 + 256 - b % 256) % 256

/-! ## RAM (src/ram.rs, `impl io::Read for RAM` / `impl io::Write for RAM`)

The store is `memory: [u8; 0x1000]`; `memory.get(addr)` succeeds exactly for
`addr < 4096`. -/

/-- `RAM::read`: `self.memory.get(address as usize).copied().ok_or(OutOfBounds)`. -/
def RAM.read (mem : Nat → Nat) (address : Nat) : Except MemoryError Nat :=
  if address < 4096 then .ok (mem address) else .error .OutOfBounds

/-- `RAM::write`: `*self.memory.get_mut(address as usize).ok_or(OutOfBounds)? = data`. -/
def RAM.write (mem : Nat → Nat) (address data : Nat) :
    Except MemoryError (Nat → Nat) :=
  if address < 4096 then .ok (updateFn mem address data) else .error .OutOfBounds

/-- `RAM::read_range`: `start.checked_add(off)` overflowing u16 is
`InvalidRange`; a sum `>= 4096` is `OutOfBounds`; otherwise the slice
`memory[start..start+off]` (`off` bytes). -/
def RAM.read_range (mem : Nat → Nat) (start_address end_offset : Nat) :
    Except MemoryError (List Nat) :=
  if 65536 ≤ start_address + end_offset then .error .InvalidRange
  else if 4096 ≤ start_address + end_offset then .error .OutOfBounds
  else .ok ((List.range end_offset).map fun k => mem (start_address + k))

/-- `RAM::write_buf`: `start.checked_add(len).filter(end <= 4096)
.ok_or(OutOfBounds)`, then `memory[start..end].copy_from_slice(data)`. -/
def RAM.write_buf (mem : Nat → Nat) (start_address : Nat) (data : List Nat) :
    Except MemoryError (Nat → Nat) :=
  if 65536 ≤ start_address + data.length then .error .OutOfBounds
  else if 4096 < start_address + data.length then .error .OutOfBounds
  else .ok fun k =>
    if start_address ≤ k ∧ k < start_address + data.length then
      data.getD (k - start_address) 0
    else mem k

/-! ## V registers (src/registers.rs)

`v: [u8; 16]`; same access discipline as RAM with capacity 16 and `u8`
address arithmetic. -/

/-- `V::read`. -/
def V.read (v : Nat → Nat) (address : Nat) : Except MemoryError Nat :=
  if address < 16 then .ok (v address) else .error .OutOfBounds

/-- `V::write`. -/
def V.write (v : Nat → Nat) (address data : Nat) :
    Except MemoryError (Nat → Nat) :=
  if address < 16 then .ok (updateFn v address data) else .error .OutOfBounds

/-- `V::read_range`: u8 `checked_add` overflow is `InvalidRange`; a sum
`>= 16` is `OutOfBounds`; otherwise the slice `v[start..start+off]`
(`off` bytes). -/
def V.read_range (v : Nat → Nat) (start_address end_offset : Nat) :
    Except MemoryError (List Nat) :=
  if 256 ≤ start_address + end_offset then .error .InvalidRange
  else if 16 ≤ start_address + end_offset then .error .OutOfBounds
  else .ok ((List.range end_offset).map fun k => v (start_address + k))

/-- `V::write_buf`: only the u8 `checked_add` is checked (`OutOfBounds` on
overflow); the slice copy itself is unchecked in the source (it would panic
for `start + len > 16`, which no caller in cpu.rs can reach: the only call
passes `start = 0` and at most 15 bytes). -/
def V.write_buf (v : Nat → Nat) (start_address : Nat) (data : List Nat) :
    Except MemoryError (Nat → Nat) :=
  if 256 ≤ start_address + data.length then .error .OutOfBounds
  else .ok fun k =>
    if start_address ≤ k ∧ k < start_address + data.length then
      data.getD (k - start_address) 0
    else v k

/-! ## Call stack (src/ram.rs, `Stack`)

`stack: [u16; 16]` with `stack_pointer: u8`. The push guard in the source is
`stack_pointer >= stack.len() - 1`, i.e. `15 ≤ sp`; under it the
`get_mut(sp)` can never miss, so its `OutOfBounds` arm is dead. -/

/-- `Stack::push`. -/
def Stack.push (stack_pointer : Nat) (stack : Nat → Nat) (data : Nat) :
    Except MemoryError (Nat × (Nat → Nat)) :=
  if 15 ≤ stack_pointer then .error .StackOverflow
  else .ok (stack_pointer + 1, updateFn stack stack_pointer data)

/-- `Stack::pop`: after `stack_pointer -= 1` the source reads
`stack.get(stack_pointer + 1)`, i.e. the slot at the pre-pop stack pointer
(one above the element `push` last wrote). -/
def Stack.pop (stack_pointer : Nat) (stack : Nat → Nat) :
    Except MemoryError (Nat × Nat) :=
  if stack_pointer = 0 then .error .StackUnderflow
  else if stack_pointer - 1 + 1 < 16 then
    .ok (stack_pointer - 1, stack (stack_pointer - 1 + 1))
  else .error .DoesNotExist

/-! ## Screen (src/screen.rs) -/

/-- `Screen::clear`: `self.screen = [0u8; 64 * 32]`. -/
def Screen.clear : Nat → Nat := fun _ => 0

/-! ## Keyboard (src/keyboard.rs) -/

/-- `Keyboard::is_key_pressed` over the shared `pressed_key: Option<u8>`. -/
def Keyboard.is_key_pressed (pressed_key : Option Nat) (key : Nat) : Bool :=
  match pressed_key with
  | some k => k == key
  | none => false

/-! ## CPU state (src/cpu.rs, `struct CPU`)

The two timers appear here as their current byte values (the mutex contents);
their spawn discipline is modelled separately below for the concurrency
claim. `rand_byte` stands for the `rand::thread_rng().gen::<u8>()` draw used
by `CXKK`. -/

structure CPUState where
  is_paused : Bool
  program_counter : Nat
  ram : Nat → Nat
  stack_pointer : Nat
  stack : Nat → Nat
  sound_timer : Nat
  delay_timer : Nat
  v : Nat → Nat
  i : Nat
  screen : Nat → Nat
  pressed_key : Option Nat
  rand_byte : Nat

/-- A concrete all-zero state with the reset program counter `0x200`,
used as the input of the concrete evaluations below. -/
def baseState : CPUState where
  is_paused := false
  program_counter := 0x200
  ram := fun _ => 0
  stack_pointer := 0
  stack := fun _ => 0
  sound_timer := 0
  delay_timer := 0
  v := fun _ => 0
  i := 0
  screen := fun _ => 0
  pressed_key := none
  rand_byte := 0

/-! ## The execution engine (src/cpu.rs, `CPU::execute_instruction`)

The dispatch is translated arm by arm. Rust's `match opcode & 0xF000`
becomes an equality chain on the top nibble `opcode / 4096 % 16`, and the
inner `match opcode & 0xFF` / `match opcode & 0xF` become chains on
`opcode % 256` / `opcode % 16`; the full-opcode comparisons of the `0x0000`
arm use the u16 value `opcode % 65536`. Every `.expect` is an explicit match
whose `Err` side is the `expectFailure` abort. -/

def execute_instruction (s₀ : CPUState) (opcode : Nat) : Except Halt CPUState :=
  -- increment_program_counter(): program_counter += 2 (u16)
  let s : CPUState :=
    { s₀ with program_counter := (s₀.program_counter + 2) % 65536 }
  let x := opcode / 256 % 16    -- (opcode & 0x0F00) >> 8
  let y := opcode / 16 % 16     -- (opcode & 0x00F0) >> 4
  if opcode / 4096 % 16 = 0x0 then
    if opcode % 65536 = 0x00E0 then
      .ok { s with screen := Screen.clear }
    else if opcode % 65536 = 0x00EE then
      match Stack.pop s.stack_pointer s.stack with
      | .ok (sp, addr) =>
          .ok { s with stack_pointer := sp, program_counter := addr }
      | .error _ => .error .expectFailure
    else
      -- Instruction 0nnn
      .ok { s with program_counter := opcode % 4096 }
  else if opcode / 4096 % 16 = 0x1 then
    .ok { s with program_counter := opcode % 4096 }
  else if opcode / 4096 % 16 = 0x2 then
    match Stack.push s.stack_pointer s.stack s.program_counter with
    | .ok (sp, st) =>
        .ok { s with stack_pointer := sp, stack := st,
                     program_counter := opcode % 4096 }
    | .error _ => .error .expectFailure
  else if opcode / 4096 % 16 = 0x3 then
    match V.read s.v x with
    | .ok vx =>
        if vx = opcode % 256 then
          .ok { s with program_counter := (s.program_counter + 2) % 65536 }
        else .ok s
    | .error _ => .error .expectFailure
  else if opcode / 4096 % 16 = 0x4 then
    match V.read s.v x with
    | .ok vx =>
        if vx ≠ opcode % 256 then
          .ok { s with program_counter := (s.program_counter + 2) % 65536 }
        else .ok s
    | .error _ => .error .expectFailure
  else if opcode / 4096 % 16 = 0x5 then
    match V.read s.v x, V.read s.v y with
    | .ok vx, .ok vy =>
        if vx = vy then
          .ok { s with program_counter := (s.program_counter + 2) % 65536 }
        else .ok s
    | _, _ => .error .expectFailure
  else if opcode / 4096 % 16 = 0x6 then
    match V.write s.v x (opcode % 256) with
    | .ok v₁ => .ok { s with v := v₁ }
    | .error _ => .error .expectFailure
  else if opcode / 4096 % 16 = 0x7 then
    match V.read s.v x with
    | .ok vx =>
        match V.write s.v x (wadd8 vx (opcode % 256)) with
        | .ok v₁ => .ok { s with v := v₁ }
        | .error _ => .error .expectFailure
    | .error _ => .error .expectFailure
  else if opcode / 4096 % 16 = 0x8 then
    if opcode % 16 = 0x0 then
      match V.read s.v y with
      | .ok vy =>
          match V.write s.v x vy with
          | .ok v₁ => .ok { s with v := v₁ }
          | .error _ => .error .expectFailure
      | .error _ => .error .expectFailure
    else if opcode % 16 = 0x1 then
      match V.read s.v x, V.read s.v y with
      | .ok vx, .ok vy =>
          match V.write s.v x (Nat.lor vx vy) with
          | .ok v₁ => .ok { s with v := v₁ }
          | .error _ => .error .expectFailure
      | _, _ => .error .expectFailure
    else if opcode % 16 = 0x2 then
      match V.read s.v x, V.read s.v y with
      | .ok vx, .ok vy =>
          match V.write s.v x (Nat.land vx vy) with
          | .ok v₁ => .ok { s with v := v₁ }
          | .error _ => .error .expectFailure
      | _, _ => .error .expectFailure
    else if opcode % 16 = 0x3 then
      match V.read s.v x, V.read s.v y with
      | .ok vx, .ok vy =>
          match V.write s.v x (Nat.xor vx vy) with
          | .ok v₁ => .ok { s with v := v₁ }
          | .error _ => .error .expectFailure
      | _, _ => .error .expectFailure
    else if opcode % 16 = 0x4 then
      -- 8XY4: result = vx.wrapping_add(vy); carry written to VF first
      match V.read s.v x, V.read s.v y with
      | .ok vx, .ok vy =>
          match V.write s.v 0xF (if 255 < vx + vy then 1 else 0) with
          | .ok v₁ =>
              match V.write v₁ x (wadd8 vx vy) with
              | .ok v₂ => .ok { s with v := v₂ }
              | .error _ => .error .expectFailure
          | .error _ => .error .expectFailure
      | _, _ => .error .expectFailure
    else if opcode % 16 = 0x5 then
      -- 8XY5: borrow flag is `vx >= vy`; VF written before the result
      match V.read s.v x, V.read s.v y with
      | .ok vx, .ok vy =>
          match V.write s.v 0xF (if vy ≤ vx then 1 else 0) with
          | .ok v₁ =>
              match V.write v₁ x (wsub8 vx vy) with
              | .ok v₂ => .ok { s with v := v₂ }
              | .error _ => .error .expectFailure
          | .error _ => .error .expectFailure
      | _, _ => .error .expectFailure
    else if opcode % 16 = 0x6 then
      -- 8XY6: VF = vx & 1, then V[x] is RE-read and shifted right
      match V.read s.v x with
      | .ok vx0 =>
          match V.write s.v 0xF (Nat.land vx0 0x1) with
          | .ok v₁ =>
              match V.read v₁ x with
              | .ok vx1 =>
                  match V.write v₁ x (vx1 / 2) with
                  | .ok v₂ => .ok { s with v := v₂ }
                  | .error _ => .error .expectFailure
              | .error _ => .error .expectFailure
          | .error _ => .error .expectFailure
      | .error _ => .error .expectFailure
    else if opcode % 16 = 0x7 then
      -- 8XY7: borrow flag is `vy > vx`; VF written before the result
      match V.read s.v x, V.read s.v y with
      | .ok vx, .ok vy =>
          match V.write s.v 0xF (if vx < vy then 1 else 0) with
          | .ok v₁ =>
              match V.write v₁ x (wsub8 vy vx) with
              | .ok v₂ => .ok { s with v := v₂ }
              | .error _ => .error .expectFailure
          | .error _ => .error .expectFailure
      | _, _ => .error .expectFailure
    else if opcode % 16 = 0xE then
      -- 8XYE: VF = vx & 0x80 (the raw masked byte), then V[x] = vx << 1
      match V.read s.v x with
      | .ok vx =>
          match V.write s.v 0xF (Nat.land vx 0x80) with
          | .ok v₁ =>
              match V.write v₁ x (vx * 2 % 256) with
              | .ok v₂ => .ok { s with v := v₂ }
              | .error _ => .error .expectFailure
          | .error _ => .error .expectFailure
      | .error _ => .error .expectFailure
    else .error .invalidInstruction
  else if opcode / 4096 % 16 = 0x9 then
    match V.read s.v x, V.read s.v y with
    | .ok vx, .ok vy =>
        if vx ≠ vy then
          .ok { s with program_counter := (s.program_counter + 2) % 65536 }
        else .ok s
    | _, _ => .error .expectFailure
  else if opcode / 4096 % 16 = 0xA then
    .ok { s with i := opcode % 4096 }
  else if opcode / 4096 % 16 = 0xB then
    match V.read s.v 0x0 with
    | .ok v0 => .ok { s with program_counter := opcode % 4096 + v0 }
    | .error _ => .error .expectFailure
  else if opcode / 4096 % 16 = 0xC then
    match V.write s.v x (Nat.land s.rand_byte (opcode % 256)) with
    | .ok v₁ => .ok { s with v := v₁ }
    | .error _ => .error .expectFailure
  else if opcode / 4096 % 16 = 0xD then
    -- DXYN: `self.screen.draw()` is `todo!("Draw sprite onto screen.")`
    .error .todoDrawSprite
  else if opcode / 4096 % 16 = 0xE then
    if opcode % 256 = 0x9E then
      match V.read s.v x with
      | .ok vx =>
          if Keyboard.is_key_pressed s.pressed_key vx then
            .ok { s with program_counter := (s.program_counter + 2) % 65536 }
          else .ok s
      | .error _ => .error .expectFailure
    else if opcode % 256 = 0xA1 then
      match V.read s.v x with
      | .ok vx =>
          if ¬ Keyboard.is_key_pressed s.pressed_key vx then
            .ok { s with program_counter := (s.program_counter + 2) % 65536 }
          else .ok s
      | .error _ => .error .expectFailure
    else .error .invalidInstruction
  else if opcode / 4096 % 16 = 0xF then
    if opcode % 256 = 0x07 then
      match V.write s.v x s.delay_timer with
      | .ok v₁ => .ok { s with v := v₁ }
      | .error _ => .error .expectFailure
    else if opcode % 256 = 0x0F then
      -- duplicate of the FX07 behaviour (the source reads the delay timer
      -- twice; both reads see the same mutex value here)
      match V.write s.v x s.delay_timer with
      | .ok v₁ => .ok { s with v := v₁ }
      | .error _ => .error .expectFailure
    else if opcode % 256 = 0x0A then
      -- FX0A: is_paused = true; key = wait_for_key(); V[x] = key;
      -- is_paused = false. With no key pressed the wait never returns.
      match s.pressed_key with
      | some key =>
          match V.write s.v x key with
          | .ok v₁ => .ok { s with v := v₁, is_paused := false }
          | .error _ => .error .expectFailure
      | none => .error .blockedOnKey
    else if opcode % 256 = 0x15 then
      match V.read s.v x with
      | .ok vx => .ok { s with delay_timer := vx }
      | .error _ => .error .expectFailure
    else if opcode % 256 = 0x18 then
      match V.read s.v x with
      | .ok vx => .ok { s with sound_timer := vx }
      | .error _ => .error .expectFailure
    else if opcode % 256 = 0x1E then
      match V.read s.v x with
      | .ok vx => .ok { s with i := (s.i + vx) % 65536 }
      | .error _ => .error .expectFailure
    else if opcode % 256 = 0x29 then
      match V.read s.v x with
      | .ok vx => .ok { s with i := vx * 5 }
      | .error _ => .error .expectFailure
    else if opcode % 256 = 0x33 then
      -- FX33: BCD digits at I, I+1, I+2; I+1 and I+2 via checked_add
      match V.read s.v x with
      | .ok vx =>
          match RAM.write s.ram s.i (vx / 100) with
          | .ok m₁ =>
              if 65536 ≤ s.i + 1 then .error .expectFailure
              else
                match RAM.write m₁ (s.i + 1) (vx % 100 / 10) with
                | .ok m₂ =>
                    if 65536 ≤ s.i + 2 then .error .expectFailure
                    else
                      match RAM.write m₂ (s.i + 2) (vx % 10) with
                      | .ok m₃ => .ok { s with ram := m₃ }
                      | .error _ => .error .expectFailure
                | .error _ => .error .expectFailure
          | .error _ => .error .expectFailure
      | .error _ => .error .expectFailure
    else if opcode % 256 = 0x55 then
      -- FX55: ram.write_buf(i, v.read_range(0, x))
      match V.read_range s.v 0 x with
      | .ok data =>
          match RAM.write_buf s.ram s.i data with
          | .ok m₁ => .ok { s with ram := m₁ }
          | .error _ => .error .expectFailure
      | .error _ => .error .expectFailure
    else if opcode % 256 = 0x65 then
      -- FX65: v.write_buf(0, ram.read_range(i, x))
      match RAM.read_range s.ram s.i x with
      | .ok data =>
          match V.write_buf s.v 0 data with
          | .ok v₁ => .ok { s with v := v₁ }
          | .error _ => .error .expectFailure
      | .error _ => .error .expectFailure
    else .error .invalidInstruction
  else .error .invalidInstruction

/-! ## Timer decay discipline (src/timer.rs)

`DelayTimer`/`SoundTimer` keep their byte behind `Arc<Mutex<u8>>`. `write`
sets the value under the lock and, whenever the stored value is non-zero,
spawns a fresh `decrement60hz` thread. Each such thread loops: take the
lock, decrement if the value is positive, otherwise terminate. The model
below tracks the mutex contents plus the number of live decay threads; each
`TimerStep` is one lock-holding critical section (so steps interleave
atomically, exactly what the mutex guarantees). -/

structure TimerSys where
  value : Nat
  decayers : Nat
deriving DecidableEq, Repr

/-- `DelayTimer::write` / `SoundTimer::write`: store the value, then spawn a
new `decrement60hz` thread iff the stored value is non-zero. -/
def TimerSys.write (t : TimerSys) (v : Nat) : TimerSys :=
  { value := v, decayers := if 0 < v then t.decayers + 1 else t.decayers }

/-- `DelayTimer::read` / `SoundTimer::read`. -/
def TimerSys.read (t : TimerSys) : Nat := t.value

/-- One atomic critical section of the timer subsystem: a `write` call, one
decrementing loop iteration of a live `decrement60hz` thread, or a live
thread observing zero and terminating. -/
inductive TimerStep : TimerSys → TimerSys → Prop where
  | write (t : TimerSys) (v : Nat) : TimerStep t (t.write v)
  | tick (t : TimerSys) : 0 < t.decayers → 0 < t.value →
      TimerStep t ⟨t.value - 1, t.decayers⟩
  | exitZero (t : TimerSys) : 0 < t.decayers → t.value = 0 →
      TimerStep t ⟨t.value, t.decayers - 1⟩

/-! ## Concrete scenario inputs for the evaluations below -/

/-- `Stack::push` on a fresh stack followed immediately by `Stack::pop`,
returning the popped value. -/
def push_then_pop (data : Nat) : Except MemoryError Nat :=
  match Stack.push 0 (fun _ => 0) data with
  | .ok (sp, st) =>
      match Stack.pop sp st with
      | .ok (_, value) => .ok value
      | .error e => .error e
  | .error e => .error e

/-- `n` consecutive `Stack::push 0x200` calls, stopping at the first error. -/
def push_repeatedly : Nat → Nat → (Nat → Nat) → Except MemoryError (Nat × (Nat → Nat))
  | 0, sp, st => .ok (sp, st)
  | n + 1, sp, st =>
      match Stack.push sp st 0x200 with
      | .ok (sp', st') => push_repeatedly n sp' st'
      | .error e => .error e

/-- State for the FX55/FX65 evaluation: `V[0] = 7`, `I = 0x300`, and the
byte at `0x300` is `9` (so a register/memory transfer would be visible). -/
def regsState : CPUState :=
  { baseState with v := updateFn (fun _ => 0) 0 7, i := 0x300,
                   ram := updateFn (fun _ => 0) 0x300 9 }

/-- State for the 8XYE evaluation: `V[0] = 0x80` (high bit set). -/
def shlState : CPUState :=
  { baseState with v := updateFn (fun _ => 0) 0 0x80 }

/-- State for the 8XY7 evaluation: `V[0] = V[1] = 5`. -/
def subnState : CPUState :=
  { baseState with v := updateFn (updateFn (fun _ => 0) 0 5) 1 5 }

/-! # Claim theorems -/

/-- Claim C1 (code bug): the claim says DXYN XOR-blits the N-row sprite at
`memory[I..I+N]` onto the framebuffer and sets `V[0xF]` to the collision
flag. In the code `Screen::draw` is `todo!("Draw sprite onto screen.")`, so
every DXYN opcode panics without drawing anything or touching `V[0xF]`:
executing `0xD121` from the reset state aborts with the `todo!` panic. -/
theorem dxyn_draw_is_todo_panic :
    execute_instruction baseState 0xD121 = .error Halt.todoDrawSprite := rfl

/-- Claim C2 (code bug): the claim says `pop` immediately after `push v`
returns `v` (LIFO). `Stack::pop` decrements the stack pointer and then reads
`stack[stack_pointer + 1]` — the slot one above the one `push` wrote — so
pushing `0x123` onto a fresh stack and popping returns the stale slot
content `0`, not `0x123`. -/
theorem push_then_pop_loses_value :
    push_then_pop 0x123 = .ok 0 ∧ (0 : Nat) ≠ 0x123 := ⟨rfl, by decide⟩

/-- Claim C3 (code bug): the claim says 16 consecutive pushes succeed and
the 17th fails. The push guard is `stack_pointer >= stack.len() - 1`
(i.e. `15 ≤ sp`), so only 15 pushes fit into the 16-slot array: the 15th
succeeds, the 16th already fails with `StackOverflow`. `pop` on the empty
stack does fail with `StackUnderflow` as claimed. -/
theorem stack_sixteenth_push_overflows :
    (∃ p, push_repeatedly 15 0 (fun _ => 0) = .ok p) ∧
    push_repeatedly 16 0 (fun _ => 0) = .error .StackOverflow ∧
    Stack.pop 0 (fun _ => 0) = .error .StackUnderflow :=
  ⟨⟨_, rfl⟩, rfl, rfl⟩

/-- Claim C4, counterexample: the claim says the unmatched opcode `0x00F1`
is reported as an `InvalidOpcode` error without state mutation. Executing
`0x00F1` instead succeeds as a `0NNN` jump: the program counter is set to
`0x0F1` and no error of any kind is produced. -/
theorem opcode_00F1_executes_as_jump :
    execute_instruction baseState 0x00F1 =
      .ok { baseState with program_counter := 0xF1 } ∧
    ∀ e, execute_instruction baseState 0x00F1 ≠ .error e :=
  ⟨rfl, fun _ h => Except.noConfusion h⟩

/-- Claim C4, amended: opcodes with top nibble `0` other than `00E0`/`00EE`
are not errors at all — they execute as a `0NNN` jump (program counter is
set to `NNN`, nothing else changes). The opcodes that really match no
instruction — `8XY_` with low nibble outside `0..7, E`, `EX__` with low
byte outside `9E/A1`, and `FX__` with an unknown low byte — abort with the
`panic!("Invalid instruction received! ..")` arm, mutating no register,
memory, stack or framebuffer state (only the program-counter increment that
precedes every dispatch has happened). -/
theorem unknown_opcode_dispatch (s : CPUState) (op : Nat) (h : op < 65536) :
    (op / 4096 = 0x0 → op ≠ 0xE0 → op ≠ 0xEE →
        execute_instruction s op = .ok { s with program_counter := op % 4096 }) ∧
    (op / 4096 = 0x8 → 7 < op % 16 → op % 16 ≠ 0xE →
        execute_instruction s op = .error .invalidInstruction) ∧
    (op / 4096 = 0xE → op % 256 ≠ 0x9E → op % 256 ≠ 0xA1 →
        execute_instruction s op = .error .invalidInstruction) ∧
    (op / 4096 = 0xF → op % 256 ≠ 0x07 → op % 256 ≠ 0x0F → op % 256 ≠ 0x0A →
        op % 256 ≠ 0x15 → op % 256 ≠ 0x18 → op % 256 ≠ 0x1E → op % 256 ≠ 0x29 →
        op % 256 ≠ 0x33 → op % 256 ≠ 0x55 → op % 256 ≠ 0x65 →
        execute_instruction s op = .error .invalidInstruction) := by
  refine ⟨?_, ?_, ?_, ?_⟩
  · intro h0 hne1 hne2
    have hm : op / 4096 % 16 = 0 := by omega
    have hmod : op % 65536 = op := Nat.mod_eq_of_lt h
    simp [execute_instruction, hm, hmod, hne1, hne2]
  · intro h0 hlo hne
    have hm : op / 4096 % 16 = 8 := by omega
    have n0 : op % 16 ≠ 0 := by omega
    have n1 : op % 16 ≠ 1 := by omega
    have n2 : op % 16 ≠ 2 := by omega
    have n3 : op % 16 ≠ 3 := by omega
    have n4 : op % 16 ≠ 4 := by omega
    have n5 : op % 16 ≠ 5 := by omega
    have n6 : op % 16 ≠ 6 := by omega
    have n7 : op % 16 ≠ 7 := by omega
    simp [execute_instruction, hm, n0, n1, n2, n3, n4, n5, n6, n7, hne]
  · intro h0 hne1 hne2
    have hm : op / 4096 % 16 = 14 := by omega
    simp [execute_instruction, hm, hne1, hne2]
  · intro h0 b1 b2 b3 b4 b5 b6 b7 b8 b9 b10
    have hm : op / 4096 % 16 = 15 := by omega
    simp [execute_instruction, hm, b1, b2, b3, b4, b5, b6, b7, b8, b9, b10]

/-- Claim C4, witness for the amended theorem: `0x8008` (an `8XY_` opcode
with unknown low nibble) aborts with the invalid-instruction panic. -/
theorem unknown_opcode_dispatch_witness :
    execute_instruction baseState 0x8008 = .error .invalidInstruction :=
  (unknown_opcode_dispatch baseState 0x8008 (by decide)).2.1
    (by decide) (by decide) (by decide)

/-- Claim C5 (code bug): the claim says FX55 stores `V[0]..V[X]` (X+1
registers) at `memory[I..I+X]` and FX65 loads X+1 bytes back. The code
passes `x` as the length of `read_range`, which returns `x` bytes, so both
transfers are one element short. With `X = 0`, `V[0] = 7`, `I = 0x300` and
`memory[0x300] = 9`: `F055` stores nothing (the byte at `I` keeps its old
value `9` instead of becoming `V[0] = 7`), and `F065` loads nothing
(`V[0]` keeps `7` instead of becoming `memory[I] = 9`). -/
theorem fx55_fx65_copy_one_short :
    (∃ s', execute_instruction regsState 0xF055 = .ok s' ∧
      s'.ram 0x300 = 9 ∧ s'.ram 0x300 ≠ regsState.v 0) ∧
    (∃ s', execute_instruction regsState 0xF065 = .ok s' ∧
      s'.v 0 = 7 ∧ s'.v 0 ≠ regsState.ram 0x300) :=
  ⟨⟨_, rfl, rfl, by decide⟩, ⟨_, rfl, rfl, by decide⟩⟩

/-- Claim C6, counterexample: the claim says a non-zero write while a decay
process is running does not create a second concurrent decayer. In the code
every non-zero `write` spawns a fresh `decrement60hz` thread: writing `5`
to an idle timer starts one decayer, and writing `3` while it runs starts a
second one — two live decay processes for the same timer. -/
theorem timer_write_spawns_second_decayer :
    TimerStep ⟨0, 0⟩ ((TimerSys.mk 0 0).write 5) ∧
    ((TimerSys.mk 0 0).write 5).decayers = 1 ∧
    TimerStep ((TimerSys.mk 0 0).write 5) (((TimerSys.mk 0 0).write 5).write 3) ∧
    (((TimerSys.mk 0 0).write 5).write 3).decayers = 2 :=
  ⟨TimerStep.write _ 5, rfl, TimerStep.write _ 3, rfl⟩

/-- Claim C6, amended: a write immediately sets the value that subsequent
reads observe (the mutex serialises it against the decayers' read-modify-
write), but each non-zero write spawns one more decay process, so several
decayers for the same timer can be live at once. Apart from explicit
writes, no step ever increases the value, and a decrement only applies to a
positive value, so the timer never wraps below zero. -/
theorem timer_write_step_semantics (t : TimerSys) (v : Nat) (hv : 0 < v) :
    (t.write v).read = v ∧ (t.write v).decayers = t.decayers + 1 ∧
    (∀ t₁ t₂ : TimerSys, TimerStep t₁ t₂ →
      t₂.value ≤ t₁.value ∨ ∃ w, t₂ = t₁.write w) := by
  refine ⟨rfl, by simp [TimerSys.write, hv], ?_⟩
  intro t₁ t₂ hstep
  cases hstep with
  | write w => exact .inr ⟨w, rfl⟩
  | tick hd hv' => exact .inl (Nat.sub_le _ _)
  | exitZero hd hz => exact .inl (Nat.le_refl _)

/-- Claim C6, witness for the amended theorem at the idle timer and the
write of `5`. -/
theorem timer_write_step_semantics_witness :
    ((TimerSys.mk 0 0).write 5).read = 5 ∧
    ((TimerSys.mk 0 0).write 5).decayers = (TimerSys.mk 0 0).decayers + 1 ∧
    (∀ t₁ t₂ : TimerSys, TimerStep t₁ t₂ →
      t₂.value ≤ t₁.value ∨ ∃ w, t₂ = t₁.write w) :=
  timer_write_step_semantics ⟨0, 0⟩ 5 (by decide)

/-- Claim C7, counterexample: the claim says 8XYE sets `V[0xF]` to `1` when
bit 7 of `V[X]` is set. With `V[0] = 0x80`, executing `0x800E` leaves
`V[0xF] = 0x80` (the raw masked byte `vx & 0x80`), not `1`. -/
theorem shl_flag_is_0x80_not_one :
    ∃ s', execute_instruction shlState 0x800E = .ok s' ∧
      s'.v 0xF = 0x80 ∧ s'.v 0xF ≠ 1 :=
  ⟨_, rfl, rfl, by decide⟩

/-- Claim C7, amended: for every X and Y, 8XYE first sets `V[0xF]` to
`V[X] & 0x80` — the raw masked byte, `0x80` rather than `1` when the high
bit is set — and then sets `V[X]` to `V[X] << 1` wrapped to 8 bits (for
`X = 0xF` that second write overwrites the flag). Nothing else changes
besides the usual program-counter increment. -/
theorem shl_semantics (s : CPUState) (x y : Nat) (hx : x < 16) (hy : y < 16) :
    execute_instruction s (0x8000 + 256 * x + 16 * y + 0xE) =
      .ok { s with program_counter := (s.program_counter + 2) % 65536,
                   v := updateFn (updateFn s.v 0xF (Nat.land (s.v x) 0x80)) x
                          (s.v x * 2 % 256) } := by
  interval_cases x <;> interval_cases y <;> rfl

/-- Claim C7, witness for the amended theorem at `X = Y = 0` in the reset
state. -/
theorem shl_semantics_witness :
    execute_instruction baseState 0x800E =
      .ok { baseState with
              program_counter := (baseState.program_counter + 2) % 65536,
              v := updateFn (updateFn baseState.v 0xF
                     (Nat.land (baseState.v 0) 0x80)) 0
                     (baseState.v 0 * 2 % 256) } :=
  shl_semantics baseState 0 0 (by decide) (by decide)

/-- Claim C8, counterexample: the claim says 8XY7 sets `V[0xF] = 1` when
`V[Y] ≥ V[X]`, including equality. With `V[0] = V[1] = 5`, executing
`0x8017` leaves `V[0xF] = 0` — the code tests the strict `V[Y] > V[X]`. -/
theorem subn_flag_zero_on_equal :
    subnState.v 1 = subnState.v 0 ∧
    ∃ s', execute_instruction subnState 0x8017 = .ok s' ∧
      s'.v 0xF = 0 ∧ s'.v 0xF ≠ 1 :=
  ⟨rfl, _, rfl, rfl, by decide⟩

/-- Claim C8, amended: for every X and Y, 8XY7 first sets `V[0xF]` to `1`
exactly when `V[Y] > V[X]` strictly (so `0` when they are equal), then sets
`V[X]` to `V[Y] - V[X]` wrapped to 8 bits (for `X = 0xF` that second write
overwrites the flag). Nothing else changes besides the program-counter
increment. -/
theorem subn_semantics (s : CPUState) (x y : Nat) (hx : x < 16) (hy : y < 16) :
    execute_instruction s (0x8000 + 256 * x + 16 * y + 0x7) =
      .ok { s with program_counter := (s.program_counter + 2) % 65536,
                   v := updateFn
                          (updateFn s.v 0xF (if s.v x < s.v y then 1 else 0)) x
                          (wsub8 (s.v y) (s.v x)) } := by
  interval_cases x <;> interval_cases y <;> rfl

/-- Claim C8, witness for the amended theorem at `X = Y = 0` in the reset
state. -/
theorem subn_semantics_witness :
    execute_instruction baseState 0x8007 =
      .ok { baseState with
              program_counter := (baseState.program_counter + 2) % 65536,
              v := updateFn (updateFn baseState.v 0xF
                     (if baseState.v 0 < baseState.v 0 then 1 else 0)) 0
                     (wsub8 (baseState.v 0) (baseState.v 0)) } :=
  subn_semantics baseState 0 0 (by decide) (by decide)

/-- Claim C9 (confirmed): for every address below 4096, `RAM::write`
succeeds and a following `RAM::read` at the same address returns the
written byte; for every address of 4096 or more, both operations fail with
`OutOfBounds` — and the failing write produces no modified store at all,
so memory is left unchanged. -/
theorem ram_write_read_roundtrip (m : Nat → Nat) (addr b a : Nat)
    (h1 : addr < 4096) (h2 : 4096 ≤ a) :
    (∃ m', RAM.write m addr b = .ok m' ∧ RAM.read m' addr = .ok b) ∧
    RAM.write m a b = .error .OutOfBounds ∧
    RAM.read m a = .error .OutOfBounds := by
  refine ⟨⟨updateFn m addr b, ?_, ?_⟩, ?_, ?_⟩
  · simp [RAM.write, h1]
  · simp [RAM.read, h1, updateFn]
  · simp [RAM.write, Nat.not_lt.mpr h2]
  · simp [RAM.read, Nat.not_lt.mpr h2]

/-- Claim C9, witness: round trip at address `768` with byte `171`, and the
out-of-bounds failures at address `5000`. -/
theorem ram_write_read_roundtrip_witness :
    (∃ m', RAM.write (fun _ => 0) 768 171 = .ok m' ∧
      RAM.read m' 768 = .ok 171) ∧
    RAM.write (fun _ => 0) 5000 171 = .error .OutOfBounds ∧
    RAM.read (fun _ => 0) 5000 = .error .OutOfBounds :=
  ram_write_read_roundtrip (fun _ => 0) 768 171 5000 (by decide) (by decide)

/-- Claim C10 (confirmed): for every X, the undocumented opcode FX0F is
dispatched, not rejected: it executes exactly like FX07, i.e. it sets
`V[X]` to the current delay-timer value, advances the program counter by
the usual 2, and changes nothing else. -/
theorem fx0f_behaves_as_fx07 (s : CPUState) (x : Nat) (hx : x < 16) :
    execute_instruction s (0xF00F + 256 * x) =
      execute_instruction s (0xF007 + 256 * x) ∧
    execute_instruction s (0xF00F + 256 * x) =
      .ok { s with program_counter := (s.program_counter + 2) % 65536,
                   v := updateFn s.v x s.delay_timer } := by
  interval_cases x <;> exact ⟨rfl, rfl⟩

/-- Claim C10, witness at `X = 3` in the reset state. -/
theorem fx0f_behaves_as_fx07_witness :
    execute_instruction baseState 0xF30F = execute_instruction baseState 0xF307 ∧
    execute_instruction baseState 0xF30F =
      .ok { baseState with
              program_counter := (baseState.program_counter + 2) % 65536,
              v := updateFn baseState.v 3 baseState.delay_timer } :=
  fx0f_behaves_as_fx07 baseState 3 (by decide)

end Chip8
